/-
Verification of the Natuna FiveM server core (`src/server/index.ts`).

The development shallowly embeds the parts of the `Server` class that the
specification talks about:

* the command registry (`registerCommand` and its inner `addCommand`),
* the storage-driver selection (`db`),
* plugin manifest discovery (`_getPlugins`, its inner `getPlugins` and the
  `this.plugins[type]` cache),
* the plugin initializer (`_initServerPlugins`),
* the lifecycle handlers (`onServerResourceStart`, `onServerResourceStop`).

JavaScript objects used as string-keyed tables (`this.commands`,
`this.plugins`, `this.serverPlugins`, `config.plugins`) are embedded as
association lists with assign-or-replace update; handlers, command configs
and loaded modules are opaque values and are embedded as `Nat` identifiers;
a `throw` is embedded as `Except.error` carrying the mutated state at the
moment of the throw (fields of `this` keep their mutations when an exception
propagates); side effects (`emitNet`, `console.log`, the figlet banner, the
version check) are recorded in explicit traces.
-/
import Mathlib

namespace Natuna

/-- Lookup in a string-keyed JS object embedded as an association list. -/
def alookup {α β : Type} [DecidableEq α] (a : α) : List (α × β) → Option β
  | [] => none
  | (k, v) :: rest => if k = a then some v else alookup a rest

/-- `obj[a] = b` on a JS object embedded as an association list:
replace the binding when the key is present, append it otherwise. -/
def aset {α β : Type} [DecidableEq α] (a : α) (b : β) : List (α × β) → List (α × β)
  | [] => [(a, b)]
  | (k, v) :: rest => if k = a then (a, b) :: rest else (k, v) :: aset a b rest

@[simp] theorem alookup_nil {α β : Type} [DecidableEq α] (a : α) :
    alookup (β := β) a [] = none := rfl

@[simp] theorem alookup_cons {α β : Type} [DecidableEq α] (a k : α) (v : β)
    (rest : List (α × β)) :
    alookup a ((k, v) :: rest) = if k = a then some v else alookup a rest := rfl

@[simp] theorem alookup_aset_self {α β : Type} [DecidableEq α] (a : α) (b : β) :
    ∀ l : List (α × β), alookup a (aset a b l) = some b
  | [] => by simp [aset]
  | (k, v) :: rest => by
      by_cases h : k = a
      · simp [aset, h]
      · simp [aset, h, alookup_aset_self a b rest]

theorem alookup_aset_ne {α β : Type} [DecidableEq α] {a a' : α} (b : β)
    (h : a ≠ a') : ∀ l : List (α × β), alookup a' (aset a b l) = alookup a' l
  | [] => by simp [aset, h]
  | (k, v) :: rest => by
      by_cases hk : k = a
      · subst hk
        simp [aset, h, alookup_aset_ne b h rest]
      · simp [aset, hk, alookup_aset_ne b h rest]

theorem length_aset_fresh {α β : Type} [DecidableEq α] {a : α} (b : β) :
    ∀ l : List (α × β), alookup a l = none → (aset a b l).length = l.length + 1
  | [], _ => by simp [aset]
  | (k, v) :: rest, h => by
      by_cases hk : k = a
      · simp [hk] at h
      · simp only [alookup_cons, if_neg hk] at h
        simp [aset, hk, length_aset_fresh b rest h]

/-! ## Command registry

Embedding of `registerCommand` (src/server/index.ts, lines 186-206).
A `CommandWrapper` keeps the constructor arguments `new CommandWrapper(this,
name, handler, config, isClientCommand)` receives (minus the `this` handle);
the handler and the config are opaque `Nat` identifiers.  The registry
state holds `this.commands` together with the trace of
`emitNet("natuna:client:setCommandDescription", -1, name, config)` calls. -/

structure CommandWrapper where
  name : String
  handler : Nat
  config : Nat
  isClientCommand : Bool
deriving DecidableEq, Repr

structure RegState where
  commands : List (String × CommandWrapper)
  broadcasts : List (String × Nat)
deriving DecidableEq, Repr

/-- The command name is passed either as a single string or as an array of
aliases. -/
inductive NameArg where
  | single (n : String)
  | aliases (ns : List String)
deriving DecidableEq, Repr

def dupCommandMsg (n : String) : String :=
  "Command \"" ++ n ++ "\" had already been registered before!"

/-- The inner `addCommand` closure of `registerCommand`:
throw on a duplicate server command, then broadcast the command description,
then return early for an already-registered client command, otherwise store
a fresh `CommandWrapper`.  A throw carries the state at that moment. -/
def addCommand (isClientCommand : Bool) (handler cfg : Nat) (st : RegState)
    (n : String) : Except (RegState × String) RegState :=
  if (alookup n st.commands).isSome && !isClientCommand then
    .error (st, dupCommandMsg n)
  else
    let st1 : RegState := { st with broadcasts := st.broadcasts ++ [(n, cfg)] }
    if (alookup n st1.commands).isSome && isClientCommand then
      .ok st1
    else
      .ok { st1 with
              commands := aset n ⟨n, handler, cfg, isClientCommand⟩ st1.commands }

/-- The `for (const alias of name) addCommand(alias)` loop. -/
def registerCommandAux (isClientCommand : Bool) (handler cfg : Nat) :
    List String → RegState → Except (RegState × String) RegState
  | [], st => .ok st
  | n :: rest, st =>
    match addCommand isClientCommand handler cfg st n with
    | .error e => .error e
    | .ok st1 => registerCommandAux isClientCommand handler cfg rest st1

/-- `registerCommand(name, handler, config, isClientCommand)`. -/
def registerCommand (st : RegState) (name : NameArg) (handler cfg : Nat)
    (isClientCommand : Bool) : Except (RegState × String) RegState :=
  match name with
  | .single n => addCommand isClientCommand handler cfg st n
  | .aliases ns => registerCommandAux isClientCommand handler cfg ns st

/-- Running the alias loop over fresh, pairwise-distinct names succeeds and
adds one entry per name (with the shared handler and config), leaves every
other key untouched, and broadcasts one description per name. -/
theorem registerCommandAux_fresh (icc : Bool) (h c : Nat) :
    ∀ (names : List String) (st : RegState), names.Nodup →
      (∀ n ∈ names, alookup n st.commands = none) →
      ∃ st', registerCommandAux icc h c names st = .ok st' ∧
        st'.commands.length = st.commands.length + names.length ∧
        (∀ n ∈ names, alookup n st'.commands = some ⟨n, h, c, icc⟩) ∧
        (∀ k, k ∉ names → alookup k st'.commands = alookup k st.commands) ∧
        st'.broadcasts = st.broadcasts ++ names.map (fun n => (n, c))
  | [], st, _, _ => ⟨st, rfl, by simp, by simp, fun _ _ => rfl, by simp⟩
  | n :: rest, st, hnd, hfresh => by
      have hn : alookup n st.commands = none := hfresh n (by simp)
      have hnotin : n ∉ rest := (List.nodup_cons.mp hnd).1
      have hrestnd : rest.Nodup := (List.nodup_cons.mp hnd).2
      set st2 : RegState :=
        { commands := aset n ⟨n, h, c, icc⟩ st.commands,
          broadcasts := st.broadcasts ++ [(n, c)] } with hst2
      have hstep : addCommand icc h c st n = .ok st2 := by
        simp [addCommand, hn, hst2]
      have hrestfresh : ∀ m ∈ rest, alookup m st2.commands = none := by
        intro m hm
        have hne : n ≠ m := fun he => hnotin (he ▸ hm)
        rw [hst2]
        simp only [alookup_aset_ne _ hne]
        exact hfresh m (by simp [hm])
      obtain ⟨st', hrun, hlen, hmem, hframe, hbc⟩ :=
        registerCommandAux_fresh icc h c rest st2 hrestnd hrestfresh
      refine ⟨st', ?_, ?_, ?_, ?_, ?_⟩
      · simp [registerCommandAux, hstep, hrun]
      · rw [hlen, hst2]
        simp [length_aset_fresh _ _ hn, Nat.add_assoc, Nat.add_comm 1]
      · intro m hm
        rcases List.mem_cons.mp hm with he | hm'
        · subst he
          rw [hframe m hnotin, hst2]
          simp
        · exact hmem m hm'
      · intro k hk
        have hkn : n ≠ k := fun he => hk (by simp [he])
        have hkrest : k ∉ rest := fun hkr => hk (by simp [hkr])
        rw [hframe k hkrest, hst2]
        simp [alookup_aset_ne _ hkn]
      · rw [hbc, hst2]
        simp

/-- The alias loop over `xs ++ ys` behaves as the loop over `xs` followed, on
success, by the loop over `ys` from the reached state. -/
theorem registerCommandAux_append (icc : Bool) (h c : Nat) :
    ∀ (xs ys : List String) (st : RegState),
      registerCommandAux icc h c (xs ++ ys) st =
        match registerCommandAux icc h c xs st with
        | .error e => .error e
        | .ok st1 => registerCommandAux icc h c ys st1
  | [], ys, st => by simp [registerCommandAux]
  | x :: xs, ys, st => by
      simp only [List.cons_append, registerCommandAux]
      cases addCommand icc h c st x with
      | error e => rfl
      | ok st1 => exact registerCommandAux_append icc h c xs ys st1

/-- C4: registering an already-registered name again as a server command
(`isClientCommand = false`) throws the duplicate-command error and leaves the
command table exactly as it was (the error carries the unchanged state). -/
theorem registerCommand_dup_server_throws (st : RegState) (n : String)
    (w : CommandWrapper) (h c : Nat) (hw : alookup n st.commands = some w) :
    registerCommand st (.single n) h c false = .error (st, dupCommandMsg n) ∧
      alookup n st.commands = some w := by
  refine ⟨?_, hw⟩
  simp [registerCommand, addCommand, hw]

/-- C4 witness: a concrete duplicate server registration throws and keeps
the previously registered wrapper. -/
theorem registerCommand_dup_server_throws_witness :
    registerCommand ⟨[("hello", ⟨"hello", 7, 1, false⟩)], []⟩
        (.single "hello") 9 2 false
      = .error (⟨[("hello", ⟨"hello", 7, 1, false⟩)], []⟩, dupCommandMsg "hello") ∧
      alookup "hello" [("hello", (⟨"hello", 7, 1, false⟩ : CommandWrapper))]
        = some ⟨"hello", 7, 1, false⟩ :=
  registerCommand_dup_server_throws ⟨[("hello", ⟨"hello", 7, 1, false⟩)], []⟩
    "hello" ⟨"hello", 7, 1, false⟩ 9 2 rfl

/-- C3 counterexample: re-registering an existing name with
`isClientCommand = true` leaves the table unchanged but does emit a
command-description broadcast, so the call is not silent. -/
theorem registerCommand_client_dup_broadcasts :
    registerCommand ⟨[("hello", ⟨"hello", 7, 1, false⟩)], []⟩
        (.single "hello") 9 2 true
      = .ok ⟨[("hello", ⟨"hello", 7, 1, false⟩)], [("hello", 2)]⟩ ∧
      ([("hello", 2)] : List (String × Nat)) ≠ [] := by
  constructor
  · rfl
  · simp

/-- C3 amended: re-registering an existing name with `isClientCommand = true`
succeeds, leaves the command table (hence the existing entry and its handler)
unchanged, but appends one command-description broadcast for that name. -/
theorem registerCommand_client_dup_noop (st : RegState) (n : String)
    (w : CommandWrapper) (h c : Nat) (hw : alookup n st.commands = some w) :
    registerCommand st (.single n) h c true
      = .ok { st with broadcasts := st.broadcasts ++ [(n, c)] } := by
  simp [registerCommand, addCommand, hw]

/-- C3 amended witness: the concrete no-op registration that still
broadcasts. -/
theorem registerCommand_client_dup_noop_witness :
    registerCommand ⟨[("hello", ⟨"hello", 7, 1, false⟩)], [("x", 0)]⟩
        (.single "hello") 9 2 true
      = .ok ⟨[("hello", ⟨"hello", 7, 1, false⟩)], [("x", 0), ("hello", 2)]⟩ :=
  registerCommand_client_dup_noop ⟨[("hello", ⟨"hello", 7, 1, false⟩)], [("x", 0)]⟩
    "hello" ⟨"hello", 7, 1, false⟩ 9 2 rfl

/-- C7: registering an array of distinct fresh aliases with one handler
creates one command entry per alias, each holding that same handler. -/
theorem registerCommand_aliases_fresh (st : RegState) (names : List String)
    (h c : Nat) (icc : Bool) (hnd : names.Nodup)
    (hfresh : ∀ n ∈ names, alookup n st.commands = none) :
    ∃ st', registerCommand st (.aliases names) h c icc = .ok st' ∧
      st'.commands.length = st.commands.length + names.length ∧
      ∀ n ∈ names, alookup n st'.commands = some ⟨n, h, c, icc⟩ := by
  obtain ⟨st', hrun, hlen, hmem, _, _⟩ :=
    registerCommandAux_fresh icc h c names st hnd hfresh
  exact ⟨st', hrun, hlen, hmem⟩

/-- C7 witness: three fresh aliases yield three entries with the shared
handler. -/
theorem registerCommand_aliases_fresh_witness :
    ∃ st', registerCommand ⟨[], []⟩ (.aliases ["a", "b", "c"]) 7 1 false
        = .ok st' ∧
      st'.commands.length = ([] : List (String × CommandWrapper)).length + 3 ∧
      ∀ n ∈ ["a", "b", "c"], alookup n st'.commands = some ⟨n, 7, 1, false⟩ :=
  registerCommand_aliases_fresh ⟨[], []⟩ ["a", "b", "c"] 7 1 false
    (by decide) (by decide)

/-- C10: alias registration is not atomic.  When the aliases before `bad` are
fresh and distinct and `bad` is already registered as a server command, the
call throws at `bad`, but the state carried by the throw already contains one
entry and one broadcast per earlier alias, and those entries remain. -/
theorem registerCommand_aliases_partial (st : RegState) (pre post : List String)
    (bad : String) (w : CommandWrapper) (h c : Nat)
    (hnd : pre.Nodup) (hfresh : ∀ n ∈ pre, alookup n st.commands = none)
    (hbad : alookup bad st.commands = some w) (hbadpre : bad ∉ pre) :
    ∃ st', registerCommand st (.aliases (pre ++ bad :: post)) h c false
        = .error (st', dupCommandMsg bad) ∧
      (∀ n ∈ pre, alookup n st'.commands = some ⟨n, h, c, false⟩) ∧
      st'.broadcasts = st.broadcasts ++ pre.map (fun n => (n, c)) := by
  obtain ⟨st1, hrun, _, hmem, hframe, hbc⟩ :=
    registerCommandAux_fresh false h c pre st hnd hfresh
  have hbad1 : alookup bad st1.commands = some w := by
    rw [hframe bad hbadpre]; exact hbad
  refine ⟨st1, ?_, hmem, hbc⟩
  simp only [registerCommand, registerCommandAux_append, hrun]
  simp [registerCommandAux, addCommand, hbad1]

/-- C10 witness: with `"dup"` already registered, registering
`["a", "b", "dup", "z"]` throws at `"dup"` while `"a"` and `"b"` are already
registered and broadcast. -/
theorem registerCommand_aliases_partial_witness :
    ∃ st',
      registerCommand ⟨[("dup", ⟨"dup", 7, 1, false⟩)], []⟩
          (.aliases (["a", "b"] ++ "dup" :: ["z"])) 9 2 false
        = .error (st', dupCommandMsg "dup") ∧
      (∀ n ∈ ["a", "b"], alookup n st'.commands = some ⟨n, 9, 2, false⟩) ∧
      st'.broadcasts = [] ++ List.map (fun n => (n, 2)) ["a", "b"] :=
  registerCommand_aliases_partial ⟨[("dup", ⟨"dup", 7, 1, false⟩)], []⟩
    ["a", "b"] ["z"] "dup" ⟨"dup", 7, 1, false⟩ 9 2
    (by decide) (by decide) rfl (by decide)

/-! ## Storage driver selection

Embedding of the `db` arrow function (src/server/index.ts, lines 127-144).
The source switches on `typeof config.core.db`: `case "cassandra"` returns a
`Cassandra` instance, `case "mysql"` and `default` return a `MySQL`
instance.  `JsValue` models a JavaScript value only as far as the `typeof`
operator distinguishes it. -/

inductive DriverKind where
  | mysql
  | cassandra
deriving DecidableEq, Repr

inductive JsValue where
  | undef
  | null
  | bool (b : Bool)
  | num (n : Int)
  | str (s : String)
  | obj
  | func
deriving DecidableEq, Repr

/-- JavaScript's `typeof` operator (`typeof null` is `"object"`). -/
def jsTypeof : JsValue → String
  | .undef => "undefined"
  | .null => "object"
  | .bool _ => "boolean"
  | .num _ => "number"
  | .str _ => "string"
  | .obj => "object"
  | .func => "function"

/-- `db`: `switch (typeof config.core.db)` with `case "cassandra"` and
`case "mysql": default:` branches. -/
def db (dbConfig : JsValue) : DriverKind :=
  match jsTypeof dbConfig with
  | "cassandra" => DriverKind.cassandra
  | _ => DriverKind.mysql

/-- C2: the backend selector is ignored.  The switch tests
`typeof config.core.db`, which is never the string `"cassandra"`, so every
configuration — including `core.db = "cassandra"` — constructs the MySQL
driver, never the Cassandra one. -/
theorem db_ignores_selector :
    (∀ v, db v = DriverKind.mysql) ∧
      db (JsValue.str "cassandra") = DriverKind.mysql ∧
      db (JsValue.str "cassandra") ≠ DriverKind.cassandra := by
  refine ⟨fun v => ?_, rfl, by simp [db, jsTypeof]⟩
  cases v <;> rfl

/-! ## Plugin manifest discovery

Embedding of the inner `getPlugins` closure of `_getPlugins`
(src/server/index.ts, lines 270-326).  A `PluginDir` is one entry of the
`plugins/` folder listing: its manifest is `none` when both
`require(manifest.ts)` and `require(manifest.json)` throw (the per-plugin
`catch` then skips it), and `hasUiDir` records whether the directory listing
contains `"ui"`.  Per-plugin configuration values are opaque (`ConfigVal.obj`
with a `Nat` identity); `ConfigVal.emptyObj` is the `{}` default. -/

inductive ConfigVal where
  | emptyObj
  | obj (id : Nat)
deriving DecidableEq, Repr

structure Manifest where
  active : Bool
  plugins : Option (List (String × List String))
deriving DecidableEq, Repr

structure PluginDir where
  name : String
  manifest : Option Manifest
  hasUiDir : Bool
deriving DecidableEq, Repr

structure PluginDescriptor where
  name : String
  file : Option String
  config : Option ConfigVal
deriving DecidableEq, Repr

abbrev GlobalPluginConfig := List (String × List (String × ConfigVal))

/-- `this.config.plugins[pluginName] && this.config.plugins[pluginName][type]
? that value : {}`. -/
def lookupPluginConfig (gc : GlobalPluginConfig) (pluginName ty : String) :
    ConfigVal :=
  match alookup pluginName gc with
  | none => ConfigVal.emptyObj
  | some perSurface =>
    match alookup ty perSurface with
    | none => ConfigVal.emptyObj
    | some c => c

/-- `type.toUpperCase()`, mapping `Char.toUpper` over the characters
(`String.toUpper` itself is opaque to kernel reduction). -/
def jsToUpperCase (s : String) : String :=
  ⟨s.data.map Char.toUpper⟩

/-- `manifest.plugins && manifest.plugins[type]`. -/
def manifestFiles (m : Manifest) (ty : String) : Option (List String) :=
  match m.plugins with
  | none => none
  | some ps => alookup ty ps

/-- The loop body for one plugin directory: skip when the manifest failed to
load, skip when `active` is false, otherwise dispatch on
`type.toUpperCase()`: `CLIENT`/`SERVER` push one descriptor per listed file
with the merged config, `NUI` pushes a name-only descriptor when the plugin
directory contains `ui`. -/
def descriptorsFor (gc : GlobalPluginConfig) (ty : String) (d : PluginDir) :
    List PluginDescriptor :=
  match d.manifest with
  | none => []
  | some m =>
    if m.active then
      if jsToUpperCase ty = "CLIENT" ∨ jsToUpperCase ty = "SERVER" then
        match manifestFiles m ty with
        | none => []
        | some files =>
          files.map
            (fun f => ⟨d.name, some f, some (lookupPluginConfig gc d.name ty)⟩)
      else if jsToUpperCase ty = "NUI" then
        if d.hasUiDir then [⟨d.name, none, none⟩] else []
      else []
    else []

/-- The full `getPlugins` scan: fold the push loop over the directory
listing, starting from the empty `activePluginLists`. -/
def getPluginsPure (dirs : List PluginDir) (gc : GlobalPluginConfig)
    (ty : String) : List PluginDescriptor :=
  dirs.foldl (fun acc d => acc ++ descriptorsFor gc ty d) []

theorem getPluginsPure_foldl (gc : GlobalPluginConfig) (ty : String) :
    ∀ (dirs : List PluginDir) (acc : List PluginDescriptor),
      dirs.foldl (fun a d => a ++ descriptorsFor gc ty d) acc
        = acc ++ dirs.foldl (fun a d => a ++ descriptorsFor gc ty d) []
  | [], acc => by simp
  | d :: dirs, acc => by
      simp only [List.foldl_cons, List.nil_append]
      rw [getPluginsPure_foldl gc ty dirs (acc ++ descriptorsFor gc ty d),
        getPluginsPure_foldl gc ty dirs (descriptorsFor gc ty d)]
      simp

theorem getPluginsPure_cons (gc : GlobalPluginConfig) (ty : String)
    (d : PluginDir) (dirs : List PluginDir) :
    getPluginsPure (d :: dirs) gc ty
      = descriptorsFor gc ty d ++ getPluginsPure dirs gc ty := by
  simp only [getPluginsPure, List.foldl_cons, List.nil_append]
  exact getPluginsPure_foldl gc ty dirs (descriptorsFor gc ty d)

/-- C5: one malformed manifest never aborts the scan — the scan over any
directory list equals the scan over just its well-formed directories, and a
directory whose manifest failed to load contributes no descriptor at all. -/
theorem discovery_skips_malformed (dirs : List PluginDir)
    (gc : GlobalPluginConfig) (ty n : String) (u : Bool) :
    getPluginsPure dirs gc ty
        = getPluginsPure (dirs.filter fun d => d.manifest.isSome) gc ty ∧
      descriptorsFor gc ty ⟨n, none, u⟩ = [] := by
  refine ⟨?_, rfl⟩
  induction dirs with
  | nil => rfl
  | cons d dirs ih =>
    by_cases hd : d.manifest.isSome
    · rw [List.filter_cons_of_pos (by simpa using hd), getPluginsPure_cons,
        getPluginsPure_cons, ih]
    · have hnone : d.manifest = none := by
        cases hm : d.manifest
        · rfl
        · rw [hm] at hd; simp at hd
      rw [List.filter_cons_of_neg (by simpa using hd), getPluginsPure_cons, ih]
      simp [descriptorsFor, hnone]

/-- C8: an inactive plugin contributes no descriptor on any surface; an
active plugin on the `server` or `client` surface contributes exactly one
descriptor per file in its per-surface module list, carrying the plugin's
per-surface configuration (the empty object when the global configuration
has none). -/
theorem descriptorsFor_manifest (gc : GlobalPluginConfig) (ty : String)
    (d : PluginDir) (m : Manifest) (hm : d.manifest = some m) :
    (m.active = false → descriptorsFor gc ty d = []) ∧
      (m.active = true → ty = "server" ∨ ty = "client" →
        descriptorsFor gc ty d
          = ((manifestFiles m ty).getD []).map
              (fun f => ⟨d.name, some f, some (lookupPluginConfig gc d.name ty)⟩)) := by
  constructor
  · intro hact
    simp [descriptorsFor, hm, hact]
  · intro hact hty
    have hcase : jsToUpperCase ty = "CLIENT" ∨ jsToUpperCase ty = "SERVER" := by
      rcases hty with rfl | rfl
      · right; decide
      · left; decide
    cases hmf : manifestFiles m ty with
    | none => simp [descriptorsFor, hm, hact, hcase, hmf]
    | some files => simp [descriptorsFor, hm, hact, hcase, hmf]

/-- C8 witness: an active plugin listing two server files with a configured
server block yields exactly one descriptor per listed file, each carrying
the configured server block. -/
theorem descriptorsFor_manifest_witness :
    ((true : Bool) = false →
        descriptorsFor [("p", [("server", ConfigVal.obj 3)])] "server"
          ⟨"p", some ⟨true, some [("server", ["a.ts", "b.ts"])]⟩, false⟩ = []) ∧
      ((true : Bool) = true → "server" = "server" ∨ "server" = "client" →
        descriptorsFor [("p", [("server", ConfigVal.obj 3)])] "server"
            ⟨"p", some ⟨true, some [("server", ["a.ts", "b.ts"])]⟩, false⟩
          = ((manifestFiles ⟨true, some [("server", ["a.ts", "b.ts"])]⟩ "server").getD []).map
              (fun f => ⟨"p", some f,
                some (lookupPluginConfig [("p", [("server", ConfigVal.obj 3)])] "p" "server")⟩)) :=
  descriptorsFor_manifest [("p", [("server", ConfigVal.obj 3)])] "server"
    ⟨"p", some ⟨true, some [("server", ["a.ts", "b.ts"])]⟩, false⟩
    ⟨true, some [("server", ["a.ts", "b.ts"])]⟩ rfl

/-! ## The per-surface discovery cache

`this.plugins[type] || (this.plugins[type] = await getPlugins(type))`
(src/server/index.ts, line 325).  A `DiscoveryState` holds the
`this.plugins` cache plus a counter of how many times the manifest scan
actually ran. -/

structure DiscoveryState where
  pluginsCache : List (String × List PluginDescriptor)
  scanCount : Nat
deriving DecidableEq, Repr

/-- `_getPlugins`: serve the cached list when present (an array, even empty,
is truthy), otherwise scan and store. -/
def getPluginsCached (dirs : List PluginDir) (gc : GlobalPluginConfig)
    (st : DiscoveryState) (ty : String) :
    List PluginDescriptor × DiscoveryState :=
  match alookup ty st.pluginsCache with
  | some l => (l, st)
  | none =>
    let l := getPluginsPure dirs gc ty
    (l, ⟨aset ty l st.pluginsCache, st.scanCount + 1⟩)

/-- C9: the first call for a surface scans once and stores the list; a
subsequent call for the same surface — even against a changed directory
listing or configuration — returns that cached list, leaves the state
untouched and performs no further scan. -/
theorem getPluginsCached_memoizes (dirs dirs' : List PluginDir)
    (gc gc' : GlobalPluginConfig) (st : DiscoveryState) (ty : String)
    (hfresh : alookup ty st.pluginsCache = none) :
    (getPluginsCached dirs gc st ty).1 = getPluginsPure dirs gc ty ∧
      (getPluginsCached dirs gc st ty).2.scanCount = st.scanCount + 1 ∧
      getPluginsCached dirs' gc' (getPluginsCached dirs gc st ty).2 ty
        = ((getPluginsCached dirs gc st ty).1,
            (getPluginsCached dirs gc st ty).2) := by
  simp [getPluginsCached, hfresh, alookup_aset_self]

/-- C9 witness: a concrete first scan followed by a second call against a
different directory listing still returns the stored list unchanged. -/
theorem getPluginsCached_memoizes_witness :
    (getPluginsCached [⟨"p", none, false⟩] [] ⟨[], 0⟩ "server").1
        = getPluginsPure [⟨"p", none, false⟩] [] "server" ∧
      (getPluginsCached [⟨"p", none, false⟩] [] ⟨[], 0⟩ "server").2.scanCount = 0 + 1 ∧
      getPluginsCached [] []
          (getPluginsCached [⟨"p", none, false⟩] [] ⟨[], 0⟩ "server").2 "server"
        = ((getPluginsCached [⟨"p", none, false⟩] [] ⟨[], 0⟩ "server").1,
            (getPluginsCached [⟨"p", none, false⟩] [] ⟨[], 0⟩ "server").2) :=
  getPluginsCached_memoizes [⟨"p", none, false⟩] [] [] [] ⟨[], 0⟩ "server" rfl

/-! ## Plugin initializer

Embedding of `_initServerPlugins` (src/server/index.ts, lines 335-349).
The loop body `this.serverPlugins[plugin.name] = require(...)` followed by
`._handler(this, plugin.config)` is NOT wrapped in any `try`, so a throw in
either step propagates out of the loop.  `ModuleEnv` gives each
`(plugin.name, plugin.file)` pair the behaviour of its module:
absent from the environment means `require` throws, `handlerThrows` means
the module loads but its `_handler` call throws, `ok` means both succeed.
A plugin counts as started exactly when its `_handler` ran to completion. -/

inductive ModuleOutcome where
  | ok (moduleId : Nat)
  | handlerThrows (moduleId : Nat)
deriving DecidableEq, Repr

abbrev ModuleEnv := List ((String × Option String) × ModuleOutcome)

structure InitState where
  serverPlugins : List (String × Nat)
  started : List String
deriving DecidableEq, Repr

/-- One observable step of the lifecycle/initializer code: a
`triggerServerEvent` emission, the figlet banner, the remote version check,
a console log, a module `require`, or a `_handler` invocation. -/
inductive Step where
  | emit (eventName : String)
  | figletBanner
  | checkVersion
  | logText (s : String)
  | logEnsuring (count : Nat) (plugin : String)
  | requireModule (plugin : String) (file : Option String)
  | callHandler (plugin : String)
deriving DecidableEq, Repr

structure InitResult where
  state : InitState
  trace : List Step
  failed : Bool
deriving DecidableEq, Repr

/-- The `for (const plugin of plugins)` loop of `_initServerPlugins`, with
its `count` starting from 1.  There is no `try`/`catch`: a failing
`require` or `_handler` ends the loop with `failed = true` and the state
reached so far. -/
def initLoop (env : ModuleEnv) :
    List PluginDescriptor → InitState → Nat → InitResult
  | [], st, _ => ⟨st, [], false⟩
  | p :: rest, st, count =>
    match alookup (p.name, p.file) env with
    | none =>
      ⟨st, [Step.logEnsuring count p.name, Step.requireModule p.name p.file], true⟩
    | some (ModuleOutcome.handlerThrows mid) =>
      ⟨⟨aset p.name mid st.serverPlugins, st.started⟩,
        [Step.logEnsuring count p.name, Step.requireModule p.name p.file,
          Step.callHandler p.name], true⟩
    | some (ModuleOutcome.ok mid) =>
      let r := initLoop env rest
        ⟨aset p.name mid st.serverPlugins, st.started ++ [p.name]⟩ (count + 1)
      ⟨r.state,
        Step.logEnsuring count p.name :: Step.requireModule p.name p.file ::
          Step.callHandler p.name :: r.trace,
        r.failed⟩

/-- `_initServerPlugins`: the opening log, the loop from count 1, and the
closing "Server Plugins Ready!" log that is only reached when no plugin
threw. -/
def initServerPlugins (env : ModuleEnv) (descs : List PluginDescriptor)
    (st : InitState) : InitResult :=
  let r := initLoop env descs st 1
  if r.failed then
    ⟨r.state, Step.logText "Intializing Server Plugins" :: r.trace, true⟩
  else
    ⟨r.state,
      (Step.logText "Intializing Server Plugins" :: r.trace)
        ++ [Step.logText "Server Plugins Ready!"],
      false⟩

/-- The module behaviour that makes the loop body throw for a descriptor:
its `require` throws or its `_handler` throws. -/
def moduleFails (env : ModuleEnv) (p : PluginDescriptor) : Bool :=
  match alookup (p.name, p.file) env with
  | some (ModuleOutcome.ok _) => false
  | _ => true

theorem initLoop_abort (env : ModuleEnv) (p : PluginDescriptor)
    (hfail : moduleFails env p = true) :
    ∀ (pre post : List PluginDescriptor) (st : InitState) (count : Nat),
      (∀ q ∈ pre, ∃ mid, alookup (q.name, q.file) env
          = some (ModuleOutcome.ok mid)) →
      (initLoop env (pre ++ p :: post) st count).failed = true ∧
        (initLoop env (pre ++ p :: post) st count).state.started
          = st.started ++ pre.map PluginDescriptor.name
  | [], post, st, count, _ => by
      simp only [List.nil_append, List.map_nil, List.append_nil]
      cases hp : alookup (p.name, p.file) env with
      | none => simp [initLoop, hp]
      | some outcome =>
        cases outcome with
        | ok mid => simp [moduleFails, hp] at hfail
        | handlerThrows mid => simp [initLoop, hp]
  | q :: pre, post, st, count, hpre => by
      obtain ⟨mid, hq⟩ := hpre q (by simp)
      have ih := initLoop_abort env p hfail pre post
        ⟨aset q.name mid st.serverPlugins, st.started ++ [q.name]⟩ (count + 1)
        (fun q' hq' => hpre q' (by simp [hq']))
      constructor
      · rw [List.cons_append]
        simp only [initLoop, hq]
        exact ih.1
      · rw [List.cons_append]
        simp only [initLoop, hq]
        rw [ih.2]
        simp

/-- C1 amended: the initializer loop has no per-plugin error isolation.
When every descriptor before `p` starts cleanly and `p`'s module load or
handler throws, `_initServerPlugins` fails; exactly the plugins before `p`
have been started, and no later descriptor is started. -/
theorem initServerPlugins_aborts (env : ModuleEnv)
    (pre post : List PluginDescriptor) (p : PluginDescriptor) (st : InitState)
    (hfail : moduleFails env p = true)
    (hpre : ∀ q ∈ pre, ∃ mid, alookup (q.name, q.file) env
        = some (ModuleOutcome.ok mid)) :
    (initServerPlugins env (pre ++ p :: post) st).failed = true ∧
      (initServerPlugins env (pre ++ p :: post) st).state.started
        = st.started ++ pre.map PluginDescriptor.name := by
  obtain ⟨h1, h2⟩ := initLoop_abort env p hfail pre post st 1 hpre
  simp [initServerPlugins, h1, h2]

/-- C1 amended witness: with plugin `p2`'s module missing between healthy
`p1` and `p3`, initialization fails having started only `p1`. -/
theorem initServerPlugins_aborts_witness :
    (initServerPlugins [(("p1", some "a.ts"), ModuleOutcome.ok 5),
          (("p3", some "c.ts"), ModuleOutcome.ok 6)]
        ([⟨"p1", some "a.ts", none⟩] ++ ⟨"p2", some "b.ts", none⟩ ::
          [⟨"p3", some "c.ts", none⟩]) ⟨[], []⟩).failed = true ∧
      (initServerPlugins [(("p1", some "a.ts"), ModuleOutcome.ok 5),
            (("p3", some "c.ts"), ModuleOutcome.ok 6)]
          ([⟨"p1", some "a.ts", none⟩] ++ ⟨"p2", some "b.ts", none⟩ ::
            [⟨"p3", some "c.ts", none⟩]) ⟨[], []⟩).state.started
        = [] ++ List.map PluginDescriptor.name [⟨"p1", some "a.ts", none⟩] :=
  initServerPlugins_aborts
    [(("p1", some "a.ts"), ModuleOutcome.ok 5),
      (("p3", some "c.ts"), ModuleOutcome.ok 6)]
    [⟨"p1", some "a.ts", none⟩] [⟨"p3", some "c.ts", none⟩]
    ⟨"p2", some "b.ts", none⟩ ⟨[], []⟩ rfl
    (by intro q hq; simp at hq; subst hq; exact ⟨5, rfl⟩)

/-- C1 counterexample: three active plugins of which the second one's module
load throws.  The claim predicts the failure is skipped, `p3` still starts,
and the activated count is 3 − 1 = 2; in fact only `p1` started (count 1),
`p3` never started, and the whole initializer failed. -/
theorem initServerPlugins_no_isolation :
    ((initServerPlugins [(("p1", some "a.ts"), ModuleOutcome.ok 5),
          (("p3", some "c.ts"), ModuleOutcome.ok 6)]
        [⟨"p1", some "a.ts", none⟩, ⟨"p2", some "b.ts", none⟩,
          ⟨"p3", some "c.ts", none⟩] ⟨[], []⟩).state.started = ["p1"] ∧
      (initServerPlugins [(("p1", some "a.ts"), ModuleOutcome.ok 5),
            (("p3", some "c.ts"), ModuleOutcome.ok 6)]
          [⟨"p1", some "a.ts", none⟩, ⟨"p2", some "b.ts", none⟩,
            ⟨"p3", some "c.ts", none⟩] ⟨[], []⟩).state.started.length ≠ 3 - 1) ∧
      "p3" ∉ (initServerPlugins [(("p1", some "a.ts"), ModuleOutcome.ok 5),
            (("p3", some "c.ts"), ModuleOutcome.ok 6)]
          [⟨"p1", some "a.ts", none⟩, ⟨"p2", some "b.ts", none⟩,
            ⟨"p3", some "c.ts", none⟩] ⟨[], []⟩).state.started ∧
      (initServerPlugins [(("p1", some "a.ts"), ModuleOutcome.ok 5),
            (("p3", some "c.ts"), ModuleOutcome.ok 6)]
          [⟨"p1", some "a.ts", none⟩, ⟨"p2", some "b.ts", none⟩,
            ⟨"p3", some "c.ts", none⟩] ⟨[], []⟩).failed = true := by
  decide

/-! ## Lifecycle handlers

Embedding of `_events.onServerResourceStart` and
`_events.onServerResourceStop` (src/server/index.ts, lines 521-557).  The
start handler, when the resource name matches, emits `starting`, prints the
figlet banner, runs the version check, emits `initializing`, logs, awaits
`_initServerPlugins()` and only then emits `ready`; a rejection from
`_initServerPlugins` aborts the handler before `ready`. -/

def onServerResourceStart (env : ModuleEnv) (descs : List PluginDescriptor)
    (st : InitState) (currentResourceName resourceName : String) :
    InitState × List Step :=
  if currentResourceName = resourceName then
    let pre : List Step :=
      [Step.emit "natuna:server:starting", Step.figletBanner, Step.checkVersion,
        Step.emit "natuna:server:initializing", Step.logText "Starting Server..."]
    let r := initServerPlugins env descs st
    if r.failed then
      (r.state, pre ++ r.trace)
    else
      (r.state,
        pre ++ r.trace ++ [Step.emit "natuna:server:ready", Step.logText "Server Ready!"])
  else (st, [])

def onServerResourceStop (currentResourceName resourceName : String) :
    List Step :=
  if currentResourceName = resourceName then [Step.emit "natuna:server:stopped"]
  else []

theorem initLoop_no_emit (env : ModuleEnv) :
    ∀ (descs : List PluginDescriptor) (st : InitState) (count : Nat)
      (s : String), Step.emit s ∉ (initLoop env descs st count).trace
  | [], _, _, _ => by simp [initLoop]
  | p :: rest, st, count, s => by
      cases hp : alookup (p.name, p.file) env with
      | none => simp [initLoop, hp]
      | some outcome =>
        cases outcome with
        | handlerThrows mid => simp [initLoop, hp]
        | ok mid =>
          simp only [initLoop, hp, List.mem_cons]
          push_neg
          exact ⟨by simp, by simp, by simp,
            initLoop_no_emit env rest _ (count + 1) s⟩

/-- C6 amended: on the matching resource-start signal, and provided plugin
initialization completes without a throw, the emitted trace is exactly
`starting`, banner, version check, `initializing`, the initializer's own
steps (which emit no event), then `ready`; the matching resource-stop
signal emits exactly `stopped`. -/
theorem lifecycle_order (env : ModuleEnv) (descs : List PluginDescriptor)
    (st : InitState) (rn : String)
    (hok : (initServerPlugins env descs st).failed = false) :
    (onServerResourceStart env descs st rn rn).2
        = [Step.emit "natuna:server:starting", Step.figletBanner,
            Step.checkVersion, Step.emit "natuna:server:initializing",
            Step.logText "Starting Server..."]
          ++ (initServerPlugins env descs st).trace
          ++ [Step.emit "natuna:server:ready", Step.logText "Server Ready!"] ∧
      (∀ s, Step.emit s ∉ (initLoop env descs st 1).trace) ∧
      onServerResourceStop rn rn = [Step.emit "natuna:server:stopped"] := by
  refine ⟨?_, fun s => initLoop_no_emit env descs st 1 s, ?_⟩
  · simp [onServerResourceStart, hok]
  · simp [onServerResourceStop]

/-- C6 amended witness: one healthy plugin produces the full ordered
lifecycle trace. -/
theorem lifecycle_order_witness :
    (onServerResourceStart [(("p1", some "a.ts"), ModuleOutcome.ok 5)]
          [⟨"p1", some "a.ts", none⟩] ⟨[], []⟩ "natuna" "natuna").2
        = [Step.emit "natuna:server:starting", Step.figletBanner,
            Step.checkVersion, Step.emit "natuna:server:initializing",
            Step.logText "Starting Server..."]
          ++ (initServerPlugins [(("p1", some "a.ts"), ModuleOutcome.ok 5)]
              [⟨"p1", some "a.ts", none⟩] ⟨[], []⟩).trace
          ++ [Step.emit "natuna:server:ready", Step.logText "Server Ready!"] ∧
      (∀ s, Step.emit s ∉ (initLoop [(("p1", some "a.ts"), ModuleOutcome.ok 5)]
          [⟨"p1", some "a.ts", none⟩] ⟨[], []⟩ 1).trace) ∧
      onServerResourceStop "natuna" "natuna" = [Step.emit "natuna:server:stopped"] :=
  lifecycle_order [(("p1", some "a.ts"), ModuleOutcome.ok 5)]
    [⟨"p1", some "a.ts", none⟩] ⟨[], []⟩ "natuna" rfl

/-- C6 counterexample: on the matching start signal with a plugin whose
module load throws, `starting` and `initializing` are emitted but `ready`
never is — the transition to Ready is skipped, contradicting the claim that
no transition is skipped. -/
theorem lifecycle_ready_skipped :
    Step.emit "natuna:server:starting"
        ∈ (onServerResourceStart [] [⟨"p2", some "b.ts", none⟩] ⟨[], []⟩
            "natuna" "natuna").2 ∧
      Step.emit "natuna:server:initializing"
        ∈ (onServerResourceStart [] [⟨"p2", some "b.ts", none⟩] ⟨[], []⟩
            "natuna" "natuna").2 ∧
      Step.emit "natuna:server:ready"
        ∉ (onServerResourceStart [] [⟨"p2", some "b.ts", none⟩] ⟨[], []⟩
            "natuna" "natuna").2 := by
  decide

end Natuna
